import Mathlib

/-!
Shallow embedding of the gallaxdesign service-tracking backend
(src/backend/server.py): data model, auth gate, CRUD handlers over a
MongoDB collection modelled as a list of stored documents, dashboard
aggregation, and the two export formatters.
-/

set_option autoImplicit false

namespace GallaxApp

/-- Calendar date, as Python `datetime.date`. -/
structure MyDate where
  year : Nat
  month : Nat
  day : Nat
deriving DecidableEq, Repr

/-- Date-time value, as Python `datetime.datetime` (sub-day part kept only
to hour/minute/second precision, which the code never inspects). -/
structure MyDateTime where
  date : MyDate
  hour : Nat
  minute : Nat
  second : Nat
deriving DecidableEq, Repr

/-- Python `datetime.combine(value, datetime.min.time())`: a date at midnight. -/
def toMidnight (d : MyDate) : MyDateTime :=
  { date := d, hour := 0, minute := 0, second := 0 }

/-- The API-level `Service` pydantic model (server.py lines 45-59):
date-only fields hold calendar dates, timestamps hold date-times. -/
structure Service where
  id : String
  name : String
  service_type : String
  provider : String
  creation_date : MyDate
  last_renewal_date : Option MyDate
  next_renewal_date : Option MyDate
  annual_fee : ℚ
  currency : String
  status : String
  notes : Option String
  is_deleted : Bool
  created_at : MyDateTime
  updated_at : MyDateTime
deriving DecidableEq, Repr

/-- A stored MongoDB document for a service: the create and update paths
convert every `date` value to a `datetime` at midnight before writing
(server.py lines 112-115 and 133-135), so stored date fields are date-times. -/
structure DocService where
  id : String
  name : String
  service_type : String
  provider : String
  creation_date : MyDateTime
  last_renewal_date : Option MyDateTime
  next_renewal_date : Option MyDateTime
  annual_fee : ℚ
  currency : String
  status : String
  notes : Option String
  is_deleted : Bool
  created_at : MyDateTime
  updated_at : MyDateTime
deriving DecidableEq, Repr

/-- The database: the `services` collection, a list of documents in
storage order (`insert_one` appends). -/
abbrev DB := List DocService

/-- The `ServiceCreate` request model (server.py lines 61-71). -/
structure ServiceCreate where
  name : String
  service_type : String
  provider : String
  creation_date : MyDate
  last_renewal_date : Option MyDate := none
  next_renewal_date : Option MyDate := none
  annual_fee : ℚ
  currency : String := "TRY"
  status : String := "active"
  notes : Option String := none
deriving DecidableEq, Repr

/-- The `ServiceUpdate` request model (server.py lines 73-83): every field
optional, defaulting to null. -/
structure ServiceUpdate where
  name : Option String := none
  service_type : Option String := none
  provider : Option String := none
  creation_date : Option MyDate := none
  last_renewal_date : Option MyDate := none
  next_renewal_date : Option MyDate := none
  annual_fee : Option ℚ := none
  currency : Option String := none
  status : Option String := none
  notes : Option String := none
deriving DecidableEq, Repr

/-- The empty partial-update body: no field supplied. -/
def emptyUpdate : ServiceUpdate := {}

/-- Conversion of a `Service` object to its stored document
(server.py lines 112-115): each date-only value becomes a date-time at
midnight; all other fields are copied. -/
def toDoc (s : Service) : DocService :=
  { id := s.id
    name := s.name
    service_type := s.service_type
    provider := s.provider
    creation_date := toMidnight s.creation_date
    last_renewal_date := s.last_renewal_date.map toMidnight
    next_renewal_date := s.next_renewal_date.map toMidnight
    annual_fee := s.annual_fee
    currency := s.currency
    status := s.status
    notes := s.notes
    is_deleted := s.is_deleted
    created_at := s.created_at
    updated_at := s.updated_at }

/-- Reading a stored document back through `Service(**service)`: pydantic
coerces a `datetime` supplied for a `date` field via `.date()`, so stored
midnight date-times come back as their calendar date. -/
def fromDoc (d : DocService) : Service :=
  { id := d.id
    name := d.name
    service_type := d.service_type
    provider := d.provider
    creation_date := d.creation_date.date
    last_renewal_date := d.last_renewal_date.map MyDateTime.date
    next_renewal_date := d.next_renewal_date.map MyDateTime.date
    annual_fee := d.annual_fee
    currency := d.currency
    status := d.status
    notes := d.notes
    is_deleted := d.is_deleted
    created_at := d.created_at
    updated_at := d.updated_at }

/-- Filter `{"is_deleted": False}`. -/
def notDeleted (d : DocService) : Bool := !d.is_deleted

/-- Filter `{"id": service_id, "is_deleted": False}`. -/
def matchesId (i : String) (d : DocService) : Bool := d.id == i && !d.is_deleted

/-- MongoDB `update_one`: apply `f` to the first document matching `p`,
leaving the rest of the collection untouched. -/
def updateFirst (p : DocService → Bool) (f : DocService → DocService) :
    List DocService → List DocService
  | [] => []
  | d :: rest => if p d then f d :: rest else d :: updateFirst p f rest

/-- The fixed bearer token accepted by the auth gate. -/
def FIXED_TOKEN : String := "authenticated"

/-- Handler `verify_token` (server.py lines 86-90): true exactly when the
presented bearer credential equals the fixed token string. -/
def verify_token (cred : String) : Bool := cred == FIXED_TOKEN

/-- A protected endpoint: the dependency check runs first and rejects with
a 401 error before the handler body produces anything. -/
def withAuth {α : Type} (cred : String) (handler : Unit → α) : Except Nat α :=
  if verify_token cred then Except.ok (handler ()) else Except.error 401

/-- Handler `login` (server.py lines 93-98): on the single hardcoded pair
returns the fixed token and message, otherwise a 401 error. -/
def login (email password : String) : Option (String × String) :=
  if email == "bilgi@gallaxdesign.com" && password == "gallax11" then
    some ("authenticated", "Login successful")
  else
    none

/-- Handler `get_services` (server.py lines 101-104):
`find({"is_deleted": False}).to_list(1000)`, each document parsed back
through the `Service` model. -/
def get_services (db : DB) : List Service :=
  ((db.filter notDeleted).take 1000).map fromDoc

/-- Construction of the `Service` object in `create_service`: caller
fields plus a generated identifier and the two server timestamps
(`created_at` and `updated_at` come from separate clock reads). -/
def buildService (c : ServiceCreate) (newId : String) (ca ua : MyDateTime) : Service :=
  { id := newId
    name := c.name
    service_type := c.service_type
    provider := c.provider
    creation_date := c.creation_date
    last_renewal_date := c.last_renewal_date
    next_renewal_date := c.next_renewal_date
    annual_fee := c.annual_fee
    currency := c.currency
    status := c.status
    notes := c.notes
    is_deleted := false
    created_at := ca
    updated_at := ua }

/-- Handler `create_service` (server.py lines 106-118): build the object,
convert dates to midnight date-times, `insert_one` into the collection,
and return the object. -/
def create_service (db : DB) (c : ServiceCreate) (newId : String)
    (ca ua : MyDateTime) : DB × Service :=
  let s := buildService c newId ca ua
  (db ++ [toDoc s], s)

/-- Handler `get_service` (server.py lines 120-125):
`find_one({"id": service_id, "is_deleted": False})`; `none` models the
404 Service-not-found error. -/
def get_service (db : DB) (i : String) : Option Service :=
  (db.find? (matchesId i)).map fromDoc

/-- The `$set` document built by `update_service` (server.py lines
129-135) applied to a stored document: every request field that is
non-null overwrites the stored value (dates converted to midnight),
`updated_at` is always stamped, and every other stored field is kept. -/
def applyUpdate (d : DocService) (u : ServiceUpdate) (now : MyDateTime) : DocService :=
  { d with
    name := u.name.getD d.name
    service_type := u.service_type.getD d.service_type
    provider := u.provider.getD d.provider
    creation_date := (u.creation_date.map toMidnight).getD d.creation_date
    last_renewal_date := (u.last_renewal_date.map (fun x => some (toMidnight x))).getD d.last_renewal_date
    next_renewal_date := (u.next_renewal_date.map (fun x => some (toMidnight x))).getD d.next_renewal_date
    annual_fee := u.annual_fee.getD d.annual_fee
    currency := u.currency.getD d.currency
    status := u.status.getD d.status
    notes := (u.notes.map (fun x => some x)).getD d.notes
    updated_at := now }

/-- Handler `update_service` (server.py lines 127-146): `update_one` on
the first document matching `{"id": i, "is_deleted": False}` with the
`$set` document; when nothing matched the handler raises 404 (`none`) and
the collection is untouched; on success the record is re-read by
`find_one({"id": i})`. Returns the resulting collection and the response. -/
def update_service (db : DB) (i : String) (u : ServiceUpdate) (now : MyDateTime) :
    DB × Option Service :=
  let db2 := updateFirst (matchesId i) (fun d => applyUpdate d u now) db
  if db.any (matchesId i) then
    (db2, (db2.find? (fun d => d.id == i)).map fromDoc)
  else
    (db2, none)

/-- Handler `delete_service` (server.py lines 148-159): `update_one` with
`{"$set": {"is_deleted": True, "updated_at": now}}` on the first document
matching `{"id": i, "is_deleted": False}`; the boolean is `matched_count
!= 0` (false models the 404 error). -/
def delete_service (db : DB) (i : String) (now : MyDateTime) : DB × Bool :=
  let db2 := updateFirst (matchesId i)
    (fun d => { d with is_deleted := true, updated_at := now }) db
  (db2, db.any (matchesId i))

/-- Match stage `{"is_deleted": False, "status": "active"}` of the two
dashboard aggregation pipelines. -/
def isActiveRec (d : DocService) : Bool := !d.is_deleted && d.status == "active"

/-- The distinct `service_type` values of a document list, as produced by
the `$group` stage keyed on `"$service_type"`. -/
def typesOf (l : List DocService) : List String :=
  (l.map (fun d => d.service_type)).dedup

/-- Count of documents of one `service_type` (`{"$sum": 1}`). -/
def typeCount (l : List DocService) (t : String) : Nat :=
  l.countP (fun d => d.service_type == t)

/-- Result of `get_dashboard_stats` (server.py lines 161-186). -/
structure DashboardStats where
  total_services : Nat
  active_services : Nat
  total_annual_fees : ℚ
  services_by_type : List (String × Nat)
deriving DecidableEq, Repr

/-- Handler `get_dashboard_stats` (server.py lines 161-186):
two `count_documents` calls; a `$match` then `$group (_id None, $sum
annual_fee)` pipeline read with `to_list(1)` whose empty result yields 0;
and a `$match` then `$group` by `service_type` pipeline read with
`to_list(10)`, capping the group list at ten entries. -/
def get_dashboard_stats (db : DB) : DashboardStats :=
  let activeDocs := db.filter isActiveRec
  { total_services := db.countP notDeleted
    active_services := db.countP isActiveRec
    total_annual_fees :=
      match activeDocs with
      | [] => 0
      | l => (l.map (fun d => d.annual_fee)).sum
    services_by_type :=
      ((typesOf activeDocs).map (fun t => (t, typeCount activeDocs t))).take 10 }

/-- Left-pad a decimal string with zeros to the given width, as the
zero-padded `strftime` directives do. -/
def padZeros (width : Nat) (s : String) : String :=
  if s.length < width then String.mk (List.replicate (width - s.length) '0') ++ s else s

/-- Python `strftime("%d.%m.%Y")` on a stored date-time. -/
def fmtDate (dt : MyDateTime) : String :=
  padZeros 2 (toString dt.date.day) ++ "." ++ padZeros 2 (toString dt.date.month)
    ++ "." ++ padZeros 4 (toString dt.date.year)

/-- Floor of a rational, `Rat.num / Rat.den` with integer division. -/
def ratFloor (q : ℚ) : ℤ := q.num / q.den

/-- Rounding to the nearest integer with ties to even, as Python float
formatting with zero decimal places does. -/
def roundHalfEven (q : ℚ) : ℤ :=
  let f := ratFloor q
  let r := q - (f : ℚ)
  if r < 1 / 2 then f
  else if 1 / 2 < r then f + 1
  else if f % 2 = 0 then f else f + 1

/-- Split a reversed digit list into blocks of three, low digits first. -/
def chunk3 : List Char → List (List Char)
  | [] => []
  | [a] => [[a]]
  | [a, b] => [[a, b]]
  | a :: b :: c :: rest => [a, b, c] :: chunk3 rest

/-- Decimal rendering of an integer with thousands separated by commas,
as the Python format specification with a comma grouping option. -/
def groupThousands (z : ℤ) : String :=
  let ds := (toString z.natAbs).data.reverse
  let grouped := (List.intercalate [','] (chunk3 ds)).reverse
  (if z < 0 then "-" else "") ++ String.mk grouped

/-- The fee text produced by the format specification with comma grouping
and zero decimal places. -/
def fmtFee (q : ℚ) : String := groupThousands (roundHalfEven q)

/-- One spreadsheet row built by `export_services_excel` (server.py lines
197-208); field names mirror the Turkish column labels of the dict. -/
structure ExcelRow where
  hizmetAdi : String
  hizmetTuru : String
  saglayici : String
  yillikUcret : ℚ
  paraBirimi : String
  olusturmaTarihi : String
  sonYenileme : String
  sonrakiYenileme : String
  durum : String
  notlar : Option String
deriving DecidableEq, Repr

/-- The spreadsheet row of one stored document: raw fee and currency,
dates formatted dd.mm.yyyy (blank when absent), localized status label. -/
def excelRow (d : DocService) : ExcelRow :=
  { hizmetAdi := d.name
    hizmetTuru := d.service_type
    saglayici := d.provider
    yillikUcret := d.annual_fee
    paraBirimi := d.currency
    olusturmaTarihi := fmtDate d.creation_date
    sonYenileme := (d.last_renewal_date.map fmtDate).getD ""
    sonrakiYenileme := (d.next_renewal_date.map fmtDate).getD ""
    durum := if d.status == "active" then "Aktif" else "Pasif"
    notlar := d.notes }

/-- The data rows of the spreadsheet export: one row per non-deleted
document, reading `find({"is_deleted": False}).to_list(1000)`. -/
def excelRows (db : DB) : List ExcelRow :=
  ((db.filter notDeleted).take 1000).map excelRow

/-- The header row of the PDF table (server.py lines 258-260). -/
def pdfHeader : List String :=
  ["Hizmet", "Tür", "Sağlayıcı", "Yıllık Ücret", "Sonraki Yenileme", "Durum"]

/-- One PDF table row (server.py lines 262-270): the fee cell is the lira
sign followed by the grouped integer fee, next renewal dd.mm.yyyy or a
dash, status as localized label. The stored currency field is not read. -/
def pdfRow (d : DocService) : List String :=
  [d.name,
   d.service_type,
   d.provider,
   "₺" ++ fmtFee d.annual_fee,
   (d.next_renewal_date.map fmtDate).getD "-",
   if d.status == "active" then "Aktif" else "Pasif"]

/-- The full PDF table data: header row then one row per non-deleted
document, reading `find({"is_deleted": False}).to_list(1000)`. -/
def pdfTableData (db : DB) : List (List String) :=
  pdfHeader :: ((db.filter notDeleted).take 1000).map pdfRow

/-- Handler `export_services_excel` (server.py lines 188-227): the whole
body sits in a try block; any exception raised while rendering becomes a
500 response whose detail carries the underlying message, and no document
is returned. The renderer (pandas and openpyxl) is abstracted as a
function from the prepared rows to either a document or an error text. -/
def export_services_excel {α : Type} (render : List ExcelRow → Except String α)
    (db : DB) : Except (Nat × String) α :=
  match render (excelRows db) with
  | Except.ok doc => Except.ok doc
  | Except.error e => Except.error (500, "Excel export failed: " ++ e)

/-- Handler `export_services_pdf` (server.py lines 229-302): same try
block shape; the renderer (reportlab) is abstracted as a function from
the prepared table data to either a document or an error text. -/
def export_services_pdf {α : Type} (render : List (List String) → Except String α)
    (db : DB) : Except (Nat × String) α :=
  match render (pdfTableData db) with
  | Except.ok doc => Except.ok doc
  | Except.error e => Except.error (500, "PDF export failed: " ++ e)

/-- One exposed mutating operation of the API. -/
inductive Op where
  | create (c : ServiceCreate) (newId : String) (ca ua : MyDateTime)
  | update (i : String) (u : ServiceUpdate) (now : MyDateTime)
  | delete (i : String) (now : MyDateTime)

/-- State transition of the stored collection under one operation. -/
def applyOp (db : DB) : Op → DB
  | Op.create c newId ca ua => (create_service db c newId ca ua).1
  | Op.update i u now => (update_service db i u now).1
  | Op.delete i now => (delete_service db i now).1

/-- A fixed sample timestamp for concrete instances. -/
def t0 : MyDateTime := toMidnight ⟨2024, 1, 1⟩

/-- A second sample timestamp. -/
def t1 : MyDateTime := toMidnight ⟨2024, 6, 15⟩

/-- A concrete stored document of a given identifier, type and status. -/
def mkDoc (i ty st : String) (deleted : Bool) : DocService :=
  { id := i
    name := i
    service_type := ty
    provider := "P"
    creation_date := t0
    last_renewal_date := none
    next_renewal_date := none
    annual_fee := 100
    currency := "TRY"
    status := st
    notes := none
    is_deleted := deleted
    created_at := t0
    updated_at := t0 }

/-- A small mixed database: one active record, one inactive record, one
soft-deleted record. -/
def sampleDb : DB :=
  [mkDoc "svc1" "Domain" "active" false,
   mkDoc "svc2" "Hosting" "inactive" false,
   mkDoc "svc3" "Domain" "active" true]

/-- A database holding eleven active, non-deleted records whose
service_type values are pairwise distinct. -/
def elevenTypesDb : DB :=
  ["t01", "t02", "t03", "t04", "t05", "t06", "t07", "t08", "t09", "t10", "t11"].map
    (fun t => mkDoc t t "active" false)

/-- A database whose only record is inactive: no record passes the
active filter. -/
def inactiveDb : DB := [mkDoc "a" "Domain" "inactive" false]

/-- A concrete create request. -/
def sampleCreate : ServiceCreate :=
  { name := "Test"
    service_type := "Domain"
    provider := "P"
    creation_date := ⟨2024, 1, 1⟩
    annual_fee := 100 }

/-! Helper lemmas. -/

/-- Storing a service and parsing it back through the model is the
identity: midnight normalization and the date projection cancel. -/
theorem fromDoc_toDoc (s : Service) : fromDoc (toDoc s) = s := by
  obtain ⟨i, n, ty, pr, cd, lrd, nrd, fee, cur, st, no, del, ca, ua⟩ := s
  cases lrd <;> cases nrd <;> rfl

/-- An `update_one` never changes the number of stored documents. -/
theorem updateFirst_length (p : DocService → Bool) (f : DocService → DocService)
    (l : List DocService) : (updateFirst p f l).length = l.length := by
  induction l with
  | nil => rfl
  | cons d rest ih =>
    simp only [updateFirst]
    split <;> simp [ih]

/-- Position-wise effect of `update_one`: every stored document is either
untouched or, when it matched the filter, rewritten by the update. -/
theorem updateFirst_get? (p : DocService → Bool) (f : DocService → DocService)
    (l : List DocService) : ∀ (i : Nat) (d : DocService), l.get? i = some d →
      (updateFirst p f l).get? i = some d ∨
      (p d = true ∧ (updateFirst p f l).get? i = some (f d)) := by
  induction l with
  | nil => intro i d h; simp at h
  | cons a rest ih =>
    intro i d h
    cases i with
    | zero =>
      simp only [List.get?_cons_zero, Option.some.injEq] at h
      subst h
      by_cases hp : p a
      · right
        exact ⟨hp, by simp [updateFirst, hp]⟩
      · left
        simp [updateFirst, hp]
    | succ j =>
      simp only [List.get?_cons_succ] at h
      by_cases hp : p a
      · left
        simpa [updateFirst, hp] using h
      · rcases ih j d h with h1 | ⟨hp2, h2⟩
        · left
          simpa [updateFirst, hp] using h1
        · right
          exact ⟨hp2, by simpa [updateFirst, hp] using h2⟩

/-- When no stored document matches the filter, `update_one` writes
nothing at all. -/
theorem updateFirst_nomatch (p : DocService → Bool) (f : DocService → DocService)
    (l : List DocService) (h : ∀ d ∈ l, p d = false) : updateFirst p f l = l := by
  induction l with
  | nil => rfl
  | cons a rest ih =>
    have ha : p a = false := h a (by simp)
    simp only [updateFirst, ha, Bool.false_eq_true, if_false]
    rw [ih (fun d hd => h d (by simp [hd]))]

/-- When some stored document matches the filter, `update_one` rewrites
the first matching document in place. -/
theorem updateFirst_first (p : DocService → Bool) (f : DocService → DocService)
    (l : List DocService) (h : l.any p = true) :
    ∃ (j : Nat) (d : DocService), l.get? j = some d ∧ p d = true ∧
      (updateFirst p f l).get? j = some (f d) := by
  induction l with
  | nil => simp at h
  | cons a rest ih =>
    by_cases hp : p a
    · exact ⟨0, a, by simp, hp, by simp [updateFirst, hp]⟩
    · have h2 : rest.any p = true := by
        simpa [List.any_cons, hp] using h
      rcases ih h2 with ⟨j, d, h1, hpd, h3⟩
      exact ⟨j + 1, d, by simpa using h1, hpd, by simpa [updateFirst, hp] using h3⟩

/-- The Boolean identifier filter, characterized as a proposition. -/
theorem matchesId_iff (i : String) (d : DocService) :
    matchesId i d = true ↔ (d.id = i ∧ d.is_deleted = false) := by
  simp [matchesId, Bool.and_eq_true, beq_iff_eq, Bool.not_eq_true']

/-- The matched-count test of the mutating handlers, characterized as a
proposition about the collection. -/
theorem any_matchesId (db : DB) (i : String) :
    db.any (matchesId i) = true ↔ ∃ d ∈ db, d.id = i ∧ d.is_deleted = false := by
  simp only [List.any_eq_true, matchesId_iff]

/-! Claim theorems. -/

/-- Claim C10: in the PDF export, for every record the annual fee cell is
prefixed with the Turkish lira symbol regardless of the stored currency
field; the stored currency value does not affect the PDF row at all,
while the spreadsheet row does carry the stored currency. -/
theorem C10_pdf_fee_lira (d : DocService) (c : String) :
    (pdfRow d).get? 3 = some ("₺" ++ fmtFee d.annual_fee) ∧
    pdfRow { d with currency := c } = pdfRow d ∧
    (excelRow { d with currency := c }).paraBirimi = c :=
  ⟨rfl, rfl, rfl⟩

/-- Claim C9: for both export formatters, a rendering failure is
propagated as a 500 response carrying the underlying failure message and
no document; a rendering success returns exactly the rendered document;
and for the empty non-deleted record set the prepared spreadsheet data
has zero rows and the prepared PDF table is the bare header row. -/
theorem C9_export_errors {α β : Type} (renderX : List ExcelRow → Except String α)
    (renderP : List (List String) → Except String β) (db : DB) (e1 e2 : String) :
    (renderX (excelRows db) = Except.error e1 →
      export_services_excel renderX db = Except.error (500, "Excel export failed: " ++ e1)) ∧
    (renderP (pdfTableData db) = Except.error e2 →
      export_services_pdf renderP db = Except.error (500, "PDF export failed: " ++ e2)) ∧
    (∀ doc : α, renderX (excelRows db) = Except.ok doc →
      export_services_excel renderX db = Except.ok doc) ∧
    (∀ doc : β, renderP (pdfTableData db) = Except.ok doc →
      export_services_pdf renderP db = Except.ok doc) ∧
    (db.filter notDeleted = [] → excelRows db = [] ∧ pdfTableData db = [pdfHeader]) := by
  refine ⟨?_, ?_, ?_, ?_, ?_⟩
  · intro h
    simp [export_services_excel, h]
  · intro h
    simp [export_services_pdf, h]
  · intro doc h
    simp [export_services_excel, h]
  · intro doc h
    simp [export_services_pdf, h]
  · intro h
    constructor
    · simp [excelRows, h]
    · simp [pdfTableData, h]

/-- Witness for C9 at a failing renderer and the empty database. -/
theorem C9_export_errors_witness :
    export_services_excel (fun _ => (Except.error "boom" : Except String Unit)) ([] : DB) =
      Except.error (500, "Excel export failed: " ++ "boom") ∧
    excelRows ([] : DB) = [] ∧ pdfTableData ([] : DB) = [pdfHeader] := by
  refine ⟨?_, ?_⟩
  · exact (C9_export_errors (fun _ => (Except.error "boom" : Except String Unit))
      (fun _ => (Except.error "boom" : Except String Unit)) ([] : DB) "boom" "boom").1 rfl
  · exact (C9_export_errors (fun _ => (Except.error "boom" : Except String Unit))
      (fun _ => (Except.error "boom" : Except String Unit)) ([] : DB) "boom" "boom").2.2.2.2 rfl

/-- Claim C6: dashboard totals, over every database state: total_services
counts all non-deleted records regardless of status, active_services
counts the non-deleted records with active status, and total_annual_fees
sums annual_fee over exactly the non-deleted active records, 0 when no
record matches. -/
theorem C6_dashboard_totals (db : DB) :
    (get_dashboard_stats db).total_services = (db.filter notDeleted).length ∧
    (get_dashboard_stats db).active_services =
      ((db.filter notDeleted).filter (fun d => d.status == "active")).length ∧
    (get_dashboard_stats db).total_annual_fees =
      ((db.filter isActiveRec).map (fun d => d.annual_fee)).sum ∧
    (db.filter isActiveRec = [] → (get_dashboard_stats db).total_annual_fees = 0) := by
  refine ⟨?_, ?_, ?_, ?_⟩
  · simp [get_dashboard_stats, List.countP_eq_length_filter]
  · simp only [get_dashboard_stats, List.countP_eq_length_filter, List.filter_filter]
    have h : (fun a : DocService => a.status == "active" && notDeleted a) = isActiveRec := by
      funext a
      exact Bool.and_comm _ _
    rw [h]
  · simp only [get_dashboard_stats]
    cases h : db.filter isActiveRec with
    | nil => simp
    | cons a l => rfl
  · intro h
    simp [get_dashboard_stats, h]

/-- Witness for C6 at a database with no active record. -/
theorem C6_dashboard_totals_witness :
    (get_dashboard_stats inactiveDb).total_annual_fees = 0 :=
  (C6_dashboard_totals inactiveDb).2.2.2 (by decide)

/-- Claim C5: login succeeds with the fixed token string and success
message exactly on the single hardcoded credential pair and fails with
Unauthorized on every other pair; the request-level check admits exactly
the fixed token string, and with any other bearer credential a protected
endpoint yields the 401 error without running its handler body. -/
theorem C5_auth_gate (e p cred : String) (α : Type) (handler : Unit → α) :
    (login e p = some (FIXED_TOKEN, "Login successful") ↔
      (e = "bilgi@gallaxdesign.com" ∧ p = "gallax11")) ∧
    (¬(e = "bilgi@gallaxdesign.com" ∧ p = "gallax11") → login e p = none) ∧
    (verify_token cred = true ↔ cred = FIXED_TOKEN) ∧
    (cred ≠ FIXED_TOKEN → withAuth cred handler = Except.error 401) ∧
    withAuth FIXED_TOKEN handler = Except.ok (handler ()) := by
  refine ⟨?_, ?_, ?_, ?_, ?_⟩
  · constructor
    · intro h
      by_cases hc : (e == "bilgi@gallaxdesign.com" && p == "gallax11") = true
      · simpa [Bool.and_eq_true, beq_iff_eq] using hc
      · simp [login, hc] at h
    · rintro ⟨h1, h2⟩
      simp [login, h1, h2, FIXED_TOKEN]
  · intro h
    have hc : (e == "bilgi@gallaxdesign.com" && p == "gallax11") = false := by
      rw [Bool.eq_false_iff]
      intro hc
      exact h (by simpa [Bool.and_eq_true, beq_iff_eq] using hc)
    simp [login, hc]
  · simp [verify_token, beq_iff_eq, FIXED_TOKEN]
  · intro h
    simp [withAuth, verify_token, beq_iff_eq, h]
  · simp [withAuth, verify_token]

/-- Witness for C5 at a rejected pair and a rejected bearer credential. -/
theorem C5_auth_gate_witness :
    login "x" "y" = none ∧
    withAuth "bad" (fun _ => (0 : Nat)) = Except.error 401 := by
  refine ⟨?_, ?_⟩
  · exact (C5_auth_gate "x" "y" "bad" Nat (fun _ => 0)).2.1 (by decide)
  · exact (C5_auth_gate "x" "y" "bad" Nat (fun _ => 0)).2.2.2.1 (by decide)

/-- Claim C2: a partial update applies exactly the request fields that
are present and non-null (dates normalized to midnight), always stamps
updated_at, and leaves every other stored field (including identifier,
is_deleted and created_at) unchanged; the empty body changes only
updated_at; and on a successful request the matched stored document is
rewritten in place to exactly this updated document. -/
theorem C2_partial_update_frame (db : DB) (i : String) (u : ServiceUpdate)
    (now : MyDateTime) (d : DocService) :
    ((applyUpdate d u now).updated_at = now ∧
     (applyUpdate d u now).name = u.name.getD d.name ∧
     (applyUpdate d u now).service_type = u.service_type.getD d.service_type ∧
     (applyUpdate d u now).provider = u.provider.getD d.provider ∧
     (applyUpdate d u now).creation_date =
       (u.creation_date.map toMidnight).getD d.creation_date ∧
     (applyUpdate d u now).last_renewal_date =
       (u.last_renewal_date.map (fun x => some (toMidnight x))).getD d.last_renewal_date ∧
     (applyUpdate d u now).next_renewal_date =
       (u.next_renewal_date.map (fun x => some (toMidnight x))).getD d.next_renewal_date ∧
     (applyUpdate d u now).annual_fee = u.annual_fee.getD d.annual_fee ∧
     (applyUpdate d u now).currency = u.currency.getD d.currency ∧
     (applyUpdate d u now).status = u.status.getD d.status ∧
     (applyUpdate d u now).notes = (u.notes.map (fun x => some x)).getD d.notes ∧
     (applyUpdate d u now).id = d.id ∧
     (applyUpdate d u now).is_deleted = d.is_deleted ∧
     (applyUpdate d u now).created_at = d.created_at) ∧
    applyUpdate d emptyUpdate now = { d with updated_at := now } ∧
    (db.any (matchesId i) = true →
      ∃ (j : Nat) (d0 : DocService), db.get? j = some d0 ∧ matchesId i d0 = true ∧
        (update_service db i u now).1.get? j = some (applyUpdate d0 u now)) := by
  refine ⟨⟨rfl, rfl, rfl, rfl, rfl, rfl, rfl, rfl, rfl, rfl, rfl, rfl, rfl, rfl⟩, rfl, ?_⟩
  intro h
  rcases updateFirst_first (matchesId i) (fun d => applyUpdate d u now) db h with
    ⟨j, d0, h1, h2, h3⟩
  refine ⟨j, d0, h1, h2, ?_⟩
  simp only [update_service, h, if_true]
  exact h3

/-- Witness for C2 at the sample database: the empty-body update of the
first record rewrites it in place, touching only updated_at. -/
theorem C2_partial_update_frame_witness :
    ∃ (j : Nat) (d0 : DocService), sampleDb.get? j = some d0 ∧
      matchesId "svc1" d0 = true ∧
      (update_service sampleDb "svc1" emptyUpdate t1).1.get? j =
        some (applyUpdate d0 emptyUpdate t1) :=
  (C2_partial_update_frame sampleDb "svc1" emptyUpdate t1
    (mkDoc "svc1" "Domain" "active" false)).2.2 (by decide)

/-- Claim C8: list_services returns only non-deleted records, each coming
from storage; when at most 1000 records are non-deleted it returns
exactly all of them; its length never exceeds 1000; and no soft-deleted
stored record appears in the result. -/
theorem C8_list_non_deleted (db : DB) :
    (∀ s ∈ get_services db, s.is_deleted = false ∧
      ∃ d ∈ db, d.is_deleted = false ∧ s = fromDoc d) ∧
    ((db.filter notDeleted).length ≤ 1000 →
      get_services db = (db.filter notDeleted).map fromDoc) ∧
    (get_services db).length ≤ 1000 ∧
    (∀ d ∈ db, d.is_deleted = true → ∀ s ∈ get_services db, s ≠ fromDoc d) := by
  have hmem : ∀ s ∈ get_services db,
      ∃ d, d ∈ db ∧ d.is_deleted = false ∧ s = fromDoc d := by
    intro s hs
    rcases List.mem_map.mp hs with ⟨d, hd, rfl⟩
    have hd2 : d ∈ db.filter notDeleted := List.take_subset _ _ hd
    rcases List.mem_filter.mp hd2 with ⟨hdb, hnd⟩
    refine ⟨d, hdb, ?_, rfl⟩
    simpa [notDeleted, Bool.not_eq_true'] using hnd
  refine ⟨?_, ?_, ?_, ?_⟩
  · intro s hs
    rcases hmem s hs with ⟨d, hdb, hdel, rfl⟩
    exact ⟨hdel, d, hdb, hdel, rfl⟩
  · intro h
    simp only [get_services, List.take_of_length_le h]
  · simp only [get_services, List.length_map, List.length_take]
    exact inf_le_left
  · intro d hdb hdel s hs heq
    rcases hmem s hs with ⟨d2, _, hdel2, rfl⟩
    have hpr : (fromDoc d2).is_deleted = (fromDoc d).is_deleted := by rw [heq]
    have hdd : d2.is_deleted = d.is_deleted := hpr
    rw [hdel2, hdel] at hdd
    exact Bool.false_ne_true hdd

/-- Witness for C8 at the sample database, which has fewer than 1000
non-deleted records. -/
theorem C8_list_non_deleted_witness :
    get_services sampleDb = (sampleDb.filter notDeleted).map fromDoc :=
  (C8_list_non_deleted sampleDb).2.1 (by decide)

/-- Claim C7: storing a record normalizes each date-only value to a
midnight date-time and reading it back restores the original date-only
value — the store-then-read round trip is the identity; in particular a
freshly created record read back through get_service is exactly the
created record, with its date fields equal to the request values, and it
also appears in list_services while the collection is under the cap. -/
theorem C7_date_roundtrip (s : Service) (db : DB) (c : ServiceCreate)
    (newId : String) (ca ua : MyDateTime) :
    fromDoc (toDoc s) = s ∧
    ((∀ d ∈ db, d.id ≠ newId) →
      get_service (create_service db c newId ca ua).1 newId =
        some (create_service db c newId ca ua).2 ∧
      (create_service db c newId ca ua).2.creation_date = c.creation_date ∧
      (create_service db c newId ca ua).2.last_renewal_date = c.last_renewal_date ∧
      (create_service db c newId ca ua).2.next_renewal_date = c.next_renewal_date) ∧
    ((db.filter notDeleted).length < 1000 →
      (create_service db c newId ca ua).2 ∈
        get_services (create_service db c newId ca ua).1) := by
  refine ⟨fromDoc_toDoc s, ?_, ?_⟩
  · intro h
    refine ⟨?_, rfl, rfl, rfl⟩
    have hnone : db.find? (matchesId newId) = none := by
      rw [List.find?_eq_none]
      intro d hd hmd
      exact h d hd ((matchesId_iff newId d).mp hmd).1
    have hsingle : List.find? (matchesId newId) [toDoc (buildService c newId ca ua)] =
        some (toDoc (buildService c newId ca ua)) := by
      simp [List.find?, matchesId, toDoc, buildService]
    show (List.find? (matchesId newId)
        (db ++ [toDoc (buildService c newId ca ua)])).map fromDoc = _
    rw [List.find?_append, hnone, Option.none_or, hsingle]
    simp only [Option.map_some', fromDoc_toDoc]
    rfl
  · intro h
    have hx : notDeleted (toDoc (buildService c newId ca ua)) = true := rfl
    have hfil : (db ++ [toDoc (buildService c newId ca ua)]).filter notDeleted
        = db.filter notDeleted ++ [toDoc (buildService c newId ca ua)] := by
      rw [List.filter_append]
      simp [hx]
    show (create_service db c newId ca ua).2 ∈
      (((db ++ [toDoc (buildService c newId ca ua)]).filter notDeleted).take 1000).map fromDoc
    rw [hfil]
    have hlen : (db.filter notDeleted ++ [toDoc (buildService c newId ca ua)]).length ≤ 1000 := by
      rw [List.length_append]
      simp only [List.length_cons, List.length_nil]
      omega
    rw [List.take_of_length_le hlen]
    exact List.mem_map.mpr ⟨toDoc (buildService c newId ca ua), by simp, fromDoc_toDoc _⟩

/-- Witness for C7: creating a record with a fresh identifier in the
sample database and reading it back returns the created record. -/
theorem C7_date_roundtrip_witness :
    get_service (create_service sampleDb sampleCreate "new1" t0 t0).1 "new1" =
      some (create_service sampleDb sampleCreate "new1" t0 t0).2 :=
  ((C7_date_roundtrip (buildService sampleCreate "new1" t0 t0) sampleDb sampleCreate
    "new1" t0 t0).2.1 (by decide)).1

/-- Claim C3: under every exposed operation the collection never shrinks,
every stored document keeps its identifier and its is_deleted flag never
goes from true back to false; and a successful delete rewrites the
matched non-deleted document in place to the same document with
is_deleted true and updated_at stamped. -/
theorem C3_soft_delete_one_way (db : DB) (op : Op) (i : String) (now : MyDateTime) :
    db.length ≤ (applyOp db op).length ∧
    (∀ (j : Nat) (d : DocService), db.get? j = some d →
      ∃ d2, (applyOp db op).get? j = some d2 ∧ d2.id = d.id ∧
        (d.is_deleted = true → d2.is_deleted = true)) ∧
    ((delete_service db i now).2 = true →
      ∃ (j : Nat) (d : DocService), db.get? j = some d ∧ d.id = i ∧
        d.is_deleted = false ∧
        (delete_service db i now).1.get? j =
          some { d with is_deleted := true, updated_at := now }) := by
  refine ⟨?_, ?_, ?_⟩
  · cases op with
    | create c newId ca ua =>
      simp only [applyOp, create_service, List.length_append, List.length_cons,
        List.length_nil]
      omega
    | update i2 u n2 =>
      have heq : (applyOp db (Op.update i2 u n2)).length = db.length := by
        simp only [applyOp, update_service]
        split <;> exact updateFirst_length _ _ db
      omega
    | delete i2 n2 =>
      have heq : (applyOp db (Op.delete i2 n2)).length = db.length :=
        updateFirst_length _ _ db
      omega
  · intro j d hj
    cases op with
    | create c newId ca ua =>
      have hlt : j < db.length := by
        rcases List.get?_eq_some.mp hj with ⟨hl, _⟩
        exact hl
      refine ⟨d, ?_, rfl, fun hh => hh⟩
      show (db ++ [toDoc (buildService c newId ca ua)]).get? j = some d
      rw [List.get?_append hlt]
      exact hj
    | update i2 u n2 =>
      have hfst : applyOp db (Op.update i2 u n2) =
          updateFirst (matchesId i2) (fun d => applyUpdate d u n2) db := by
        simp only [applyOp, update_service]
        split <;> rfl
      rcases updateFirst_get? (matchesId i2) (fun d => applyUpdate d u n2) db j d hj with
        h1 | ⟨hp, h2⟩
      · exact ⟨d, by rw [hfst]; exact h1, rfl, fun hh => hh⟩
      · exact ⟨applyUpdate d u n2, by rw [hfst]; exact h2, rfl, fun hh => hh⟩
    | delete i2 n2 =>
      rcases updateFirst_get? (matchesId i2)
          (fun d => { d with is_deleted := true, updated_at := n2 }) db j d hj with
        h1 | ⟨hp, h2⟩
      · exact ⟨d, h1, rfl, fun hh => hh⟩
      · exact ⟨_, h2, rfl, fun _ => rfl⟩
  · intro h
    have hany : db.any (matchesId i) = true := h
    rcases updateFirst_first (matchesId i)
        (fun d => { d with is_deleted := true, updated_at := now }) db hany with
      ⟨j, d, h1, h2, h3⟩
    rcases (matchesId_iff i d).mp h2 with ⟨hid, hdel⟩
    exact ⟨j, d, h1, hid, hdel, h3⟩

/-- Witness for C3: deleting the first sample record flips its is_deleted
flag in place. -/
theorem C3_soft_delete_one_way_witness :
    ∃ (j : Nat) (d : DocService), sampleDb.get? j = some d ∧ d.id = "svc1" ∧
      d.is_deleted = false ∧
      (delete_service sampleDb "svc1" t1).1.get? j =
        some { d with is_deleted := true, updated_at := t1 } :=
  (C3_soft_delete_one_way sampleDb (Op.delete "svc1" t1) "svc1" t1).2.2 (by decide)

/-- Mapping a function over an optional value preserves presence. -/
theorem isSome_map {α β : Type} (f : α → β) (o : Option α) :
    (o.map f).isSome = o.isSome := by
  cases o <;> rfl

/-- Claim C4: get, update and delete fail with NotFound and leave the
collection unchanged exactly on identifiers that are absent or refer only
to soft-deleted documents, and succeed on the identifier of every
non-deleted stored document. -/
theorem C4_notfound_gate (db : DB) (i : String) (u : ServiceUpdate)
    (now now2 : MyDateTime) :
    ((∀ d ∈ db, ¬(d.id = i ∧ d.is_deleted = false)) →
      get_service db i = none ∧
      update_service db i u now = (db, none) ∧
      delete_service db i now2 = (db, false)) ∧
    ((∃ d ∈ db, d.id = i ∧ d.is_deleted = false) →
      (get_service db i).isSome = true ∧
      (update_service db i u now).2.isSome = true ∧
      (delete_service db i now2).2 = true) := by
  constructor
  · intro h
    have hm : ∀ d ∈ db, matchesId i d = false := by
      intro d hd
      rw [Bool.eq_false_iff]
      intro hmd
      exact h d hd ((matchesId_iff i d).mp hmd)
    have hany : db.any (matchesId i) = false := by
      rw [Bool.eq_false_iff]
      intro ha
      rcases (any_matchesId db i).mp ha with ⟨d, hd, h1, h2⟩
      exact h d hd ⟨h1, h2⟩
    have hfind : db.find? (matchesId i) = none := by
      rw [List.find?_eq_none]
      intro d hd
      rw [hm d hd]
      exact Bool.false_ne_true
    refine ⟨?_, ?_, ?_⟩
    · show (db.find? (matchesId i)).map fromDoc = none
      rw [hfind]
      rfl
    · simp [update_service, hany, updateFirst_nomatch _ _ db hm]
    · simp [delete_service, hany, updateFirst_nomatch _ _ db hm]
  · rintro ⟨d, hd, h1, h2⟩
    have hany : db.any (matchesId i) = true := (any_matchesId db i).mpr ⟨d, hd, h1, h2⟩
    refine ⟨?_, ?_, ?_⟩
    · show ((db.find? (matchesId i)).map fromDoc).isSome = true
      rw [isSome_map]
      exact List.find?_isSome.mpr ⟨d, hd, (matchesId_iff i d).mpr ⟨h1, h2⟩⟩
    · rcases updateFirst_first (matchesId i) (fun d => applyUpdate d u now) db hany with
        ⟨j, d0, hj, hp, hj2⟩
      simp only [update_service, hany, if_true]
      rw [isSome_map]
      have hmemb : applyUpdate d0 u now ∈
          updateFirst (matchesId i) (fun d => applyUpdate d u now) db :=
        List.get?_mem hj2
      have hid0 : (applyUpdate d0 u now).id = i := ((matchesId_iff i d0).mp hp).1
      exact List.find?_isSome.mpr ⟨applyUpdate d0 u now, hmemb, by
        rw [beq_iff_eq]
        exact hid0⟩
    · exact hany

/-- Witness for C4: the soft-deleted identifier of the sample database is
invisible to get_service, while the active identifier is found. -/
theorem C4_notfound_gate_witness :
    get_service sampleDb "svc3" = none ∧ (get_service sampleDb "svc1").isSome = true := by
  constructor
  · exact ((C4_notfound_gate sampleDb "svc3" emptyUpdate t1 t1).1 (by decide)).1
  · exact ((C4_notfound_gate sampleDb "svc1" emptyUpdate t1 t1).2 (by decide)).1

/-- C1 counterexample: with eleven active, non-deleted records of eleven
distinct service_type values, one type has records but no group in
services_by_type, because the handler reads the group cursor with a cap
of ten entries. -/
theorem C1_counterexample :
    (∃ d ∈ elevenTypesDb, isActiveRec d = true ∧ d.service_type = "t11") ∧
    ¬ ∃ p ∈ (get_dashboard_stats elevenTypesDb).services_by_type, p.1 = "t11" := by
  decide

/-- Claim C1 (amended): services_by_type is the grouping of active,
non-deleted records by service_type capped at ten groups: every reported
group carries the exact count of active, non-deleted records of its type
and corresponds to at least one such record, and no group is omitted
whenever at most ten distinct service_type values occur among the
active, non-deleted records; the group list never exceeds ten entries. -/
theorem C1_services_by_type_grouping (db : DB) :
    (∀ p ∈ (get_dashboard_stats db).services_by_type,
      (∃ d ∈ db, isActiveRec d = true ∧ d.service_type = p.1) ∧
      p.2 = typeCount (db.filter isActiveRec) p.1) ∧
    ((typesOf (db.filter isActiveRec)).length ≤ 10 →
      ∀ t : String, (∃ d ∈ db, isActiveRec d = true ∧ d.service_type = t) →
        (t, typeCount (db.filter isActiveRec) t) ∈
          (get_dashboard_stats db).services_by_type) ∧
    (get_dashboard_stats db).services_by_type.length ≤ 10 := by
  have hsbt : (get_dashboard_stats db).services_by_type =
      ((typesOf (db.filter isActiveRec)).map
        (fun t => (t, typeCount (db.filter isActiveRec) t))).take 10 := rfl
  refine ⟨?_, ?_, ?_⟩
  · intro p hp
    rw [hsbt] at hp
    have hp2 := List.take_subset _ _ hp
    rcases List.mem_map.mp hp2 with ⟨t, ht, rfl⟩
    have ht2 : t ∈ (db.filter isActiveRec).map (fun d => d.service_type) :=
      List.mem_dedup.mp ht
    rcases List.mem_map.mp ht2 with ⟨d, hdf, hdt⟩
    rcases List.mem_filter.mp hdf with ⟨hdb, hact⟩
    exact ⟨⟨d, hdb, hact, hdt⟩, rfl⟩
  · rintro h10 t ⟨d, hdb, hact, hdt⟩
    rw [hsbt]
    have hlen : ((typesOf (db.filter isActiveRec)).map
        (fun t => (t, typeCount (db.filter isActiveRec) t))).length ≤ 10 := by
      rw [List.length_map]
      exact h10
    rw [List.take_of_length_le hlen]
    refine List.mem_map.mpr ⟨t, ?_, rfl⟩
    exact List.mem_dedup.mpr (List.mem_map.mpr ⟨d, List.mem_filter.mpr ⟨hdb, hact⟩, hdt⟩)
  · rw [hsbt, List.length_take]
    exact inf_le_left

/-- Witness for C1 (amended): in the sample database the Domain group is
reported with its exact count. -/
theorem C1_services_by_type_grouping_witness :
    ("Domain", typeCount (sampleDb.filter isActiveRec) "Domain") ∈
      (get_dashboard_stats sampleDb).services_by_type :=
  (C1_services_by_type_grouping sampleDb).2.1 (by decide) "Domain" (by decide)

end GallaxApp
